import Mathlib

/-!
Verification of the Solana x402 facilitator
(`src/fullstack/servers/express/real-facilitator.js`).

The JavaScript source is shallowly embedded: JSON documents become the
inductive type `JVal`, the Express handlers become total Lean functions over
an oracle `World` that packages the behaviour of the external RPC connection
and of the `@solana/web3.js` / `@solana/spl-token` libraries, and every
ledger interaction performed by a handler is recorded in an explicit
effect trace (`Eff`).  Thrown JavaScript exceptions are modelled with
`Except String`.
-/

namespace X402

/-- A JavaScript/JSON value as handled by the facilitator.  `undefined` stands
for JavaScript `undefined` (a missing field). -/
inductive JVal where
  | null : JVal
  | undefined : JVal
  | bool : Bool → JVal
  | num : Int → JVal
  | str : String → JVal
  | obj : List (String × JVal) → JVal
deriving Repr

/-- JavaScript truthiness: `null`, `undefined`, `false`, `0` and the empty
string are falsy; objects are always truthy. -/
def truthy : JVal → Bool
  | .null => false
  | .undefined => false
  | .bool b => b
  | .num n => n != 0
  | .str s => s != ""
  | .obj _ => true

/-- Property access `v.k` in the situations where `v` is known not to be
`null`/`undefined`: field lookup on objects, `undefined` on primitives
(the facilitator reads no string/number properties).  Matches the optional
chaining `v?.k` for every `v`. -/
def jget (v : JVal) (k : String) : JVal :=
  match v with
  | .obj fs => ((fs.lookup k).getD .undefined)
  | _ => .undefined

/-- Unguarded property access `v.k`: throws a `TypeError` when `v` is
`null` or `undefined` (message modelled after the Node.js runtime). -/
def jgetE (v : JVal) (k : String) : Except String JVal :=
  match v with
  | .null => .error ("Cannot read properties of null (reading " ++ k ++ ")")
  | .undefined => .error ("Cannot read properties of undefined (reading " ++ k ++ ")")
  | _ => .ok (jget v k)

/-- `Object.keys(v)`: field names of an object, index strings of a string
(the only truthy primitives with own enumerable keys), `[]` otherwise. -/
def jkeys : JVal → List String
  | .obj fs => fs.map (fun p => p.1)
  | .str s => (List.range s.length).map (fun n => toString n)
  | _ => []

/-- JavaScript `a || b`. -/
def jor (a b : JVal) : JVal := if truthy a then a else b

/-- `s.startsWith(p)`, computed on the character lists so that concrete
instances evaluate inside the kernel. -/
def strStarts (s p : String) : Bool := s.data.take p.data.length == p.data

mutual

/-- `JSON.stringify`, as far as the facilitator interpolates it into error
messages (no escaping of special characters inside strings). -/
def jsonStr : JVal → String
  | .null => "null"
  | .undefined => "undefined"
  | .bool b => cond b "true" "false"
  | .num n => toString n
  | .str s => "\"" ++ s ++ "\""
  | .obj fs => "\x7b" ++ jsonStrFields fs ++ "\x7d"

def jsonStrFields : List (String × JVal) → String
  | [] => ""
  | [(k, v)] => "\"" ++ k ++ "\":" ++ jsonStr v
  | (k, v) :: p :: fs => "\"" ++ k ++ "\":" ++ jsonStr v ++ "," ++ jsonStrFields (p :: fs)

end

/-- JavaScript template-literal coercion of a value to a string. -/
def jdisp : JVal → String
  | .null => "null"
  | .undefined => "undefined"
  | .bool b => cond b "true" "false"
  | .num n => toString n
  | .str s => s
  | .obj _ => "[object Object]"

/-! ## Payload normalizer (`extractTransactionData`) -/

/-- The tagged record produced by `extractTransactionData`.  One constructor
per recognized payload shape. -/
inductive TxData where
  | sponsored (userSignature facilitatorTransaction userPublicKey : JVal)
  | minimal (signature transaction : JVal)
  | full (signature transaction payer amount mint recipient blockhash memo : JVal)
  | authOnly (signature payer recipient amount memo : JVal)
deriving Repr

/-- The `format` discriminator string stored in the extracted record. -/
def TxData.fmt : TxData → String
  | .sponsored .. => "facilitator_sponsored"
  | .minimal .. => "minimal"
  | .full .. => "full"
  | .authOnly .. => "authorization_only"

/-- The destructured `signature` field (`undefined` for the sponsored
shape, which carries `userSignature` instead). -/
def TxData.sigv : TxData → JVal
  | .sponsored .. => .undefined
  | .minimal s _ => s
  | .full s .. => s
  | .authOnly s .. => s

/-- The destructured `transaction` field (`undefined` for the sponsored and
authorization-only shapes). -/
def TxData.txv : TxData → JVal
  | .sponsored .. => .undefined
  | .minimal _ t => t
  | .full _ t .. => t
  | .authOnly .. => .undefined

/-- The extracted `payer` field (`undefined` for shapes without one). -/
def TxData.payerv : TxData → JVal
  | .sponsored .. => .undefined
  | .minimal .. => .undefined
  | .full _ _ p .. => p
  | .authOnly _ p .. => p

/-- Field-presence test for the `facilitator_sponsored` shape. -/
def sponsCond (p : JVal) : Bool :=
  truthy (jget p "userSignature") && truthy (jget p "facilitatorTransaction") &&
    truthy (jget p "userPublicKey")

/-- Field-presence test for the `minimal` shape. -/
def minCond (p : JVal) : Bool :=
  truthy (jget p "signature") && truthy (jget p "transaction") && !truthy (jget p "payer")

/-- Field-presence test for the `full` shape. -/
def fullCond (p : JVal) : Bool :=
  truthy (jget p "signature") && truthy (jget p "transaction") && truthy (jget p "payer")

/-- Field-presence test for the `authorization_only` shape. -/
def authCond (p : JVal) : Bool :=
  truthy (jget p "signature") && truthy (jget p "authorization") && !truthy (jget p "transaction")

/-- The `Unrecognized payload format` error message, listing the fields
present on the inner payload. -/
def unrecognizedMsg (p : JVal) : String :=
  "Unrecognized payload format. Available fields: " ++
    String.intercalate ", " (jkeys p) ++
    ". Expected: signature + transaction (+ optional payer, amount, etc.)"

/-- `extractTransactionData(paymentPayload)`: classify the inner document
into one of the four recognized shapes, in the source priority order, or
throw. -/
def extractTransactionData (paymentPayload : JVal) : Except String TxData :=
  let payload := jget paymentPayload "payload"
  if ¬ truthy payload then .error "Missing payload in payment"
  else if sponsCond payload then
    .ok (.sponsored (jget payload "userSignature") (jget payload "facilitatorTransaction")
          (jget payload "userPublicKey"))
  else if minCond payload then
    .ok (.minimal (jget payload "signature") (jget payload "transaction"))
  else if fullCond payload then
    .ok (.full (jget payload "signature") (jget payload "transaction") (jget payload "payer")
          (jget payload "amount") (jget payload "mint") (jget payload "recipient")
          (jget payload "blockhash") (jget payload "memo"))
  else if authCond payload then
    let auth := jget payload "authorization"
    .ok (.authOnly (jget payload "signature") (jget auth "from") (jget auth "to")
          (jget auth "value") (jget auth "nonce"))
  else .error (unrecognizedMsg payload)

/-! ## Ledger data and the oracle world -/

/-- A decoded wire transaction (`Transaction.from`), reduced to the only
attribute the facilitator inspects: its fee payer (`none` models a wire
transaction whose message declares no required signer, for which
`web3.js` leaves `feePayer` undefined). -/
structure Tx where
  feePayer : Option String
deriving Repr, DecidableEq

/-- One `getSignatureStatus(...).value` record. -/
structure SigStatus where
  confirmationStatus : Option String
  err : JVal
deriving Repr

/-- The `meta` record of a fetched transaction. -/
structure TxMeta where
  err : JVal
  fee : Int
deriving Repr

/-- A transaction fetched from the ledger by `getTransaction`. -/
structure TxInfo where
  slot : Int
  blockTime : Option Int
  meta : Option TxMeta
deriving Repr

/-- A ledger interaction performed by a handler, recorded in an effect
trace: simulation, a read-only transaction lookup, a broadcast
(`sendRawTransaction`), a blockhash fetch, or the `i`-th status poll. -/
inductive Eff where
  | simE (tx : Tx)
  | getTxE (sig : JVal)
  | sendE (tx : Tx)
  | blockhashE
  | statusE (i : Nat)

/-- `true` for the effects the verify path is allowed to perform:
simulation and read-only `getTransaction` lookups. -/
def isVerifyEff : Eff → Bool
  | .simE _ => true
  | .getTxE _ => true
  | _ => false

/-- `true` exactly for a broadcast effect. -/
def isSendEff : Eff → Bool
  | .sendE _ => true
  | _ => false

/-- The oracle world: the facilitator identity, deterministic models of the
external library calls (`Transaction.from`, `new PublicKey`, ATA
derivation, ...), the RPC responses, and a log `sent` of broadcasts already
performed, which is the only part of the world a handler can mutate. -/
structure World where
  facPub : String
  decodeTx : JVal → Except String Tx
  serializeTx : Tx → Except String Unit
  simulate : Tx → Except String JVal
  getTx : JVal → Except String (Option TxInfo)
  sendRaw : Tx → Except String String
  elapsed : Nat → Nat
  poll : Nat → Except String (Option SigStatus)
  latestBlockhash : Except String String
  parsePk : JVal → Except String String
  getAta : String → String → Except String String
  toBigInt : JVal → Except String Int
  sent : List Tx

/-- How an effect changes the world: a broadcast is appended to the `sent`
log; simulations, lookups and polls are read-only. -/
def applyEff (w : World) (e : Eff) : World :=
  match e with
  | .sendE tx => { w with sent := w.sent ++ [tx] }
  | _ => w

/-- The world after a trace of effects. -/
def worldAfter (w : World) (t : List Eff) : World := t.foldl applyEff w

/-- The statically configured network registry keys. -/
def supportedNetwork (s : String) : Bool :=
  s == "solana-devnet" || s == "solana-mainnet" || s == "solana-testnet"

/-- `connections[network]` is defined: the network value is one of the three
registry keys (indexing with a non-string never hits a key). -/
def jnetOk (v : JVal) : Bool :=
  match v with
  | .str s => supportedNetwork s
  | _ => false

/-- `existingTx.meta?.err`. -/
def metaErr (t : TxInfo) : JVal :=
  match t.meta with
  | some m => m.err
  | none => .undefined

/-! ## Verify handler (`app.post /verify`) -/

/-- The JSON body of a `/verify` response. -/
structure VerifyResp where
  status : Nat
  isValid : Bool
  invalidReason : Option String
  payer : Option JVal
  gasSponsoredByFacilitator : Option Bool
deriving Repr

/-- A 400 rejection body for `/verify`. -/
def vReject (m : String) : VerifyResp :=
  { status := 400, isValid := false, invalidReason := some m, payer := none,
    gasSponsoredByFacilitator := none }

/-- The `payer` field of a successful verification: the facilitator for the
sponsored shape, else `transactionData.payer ||
paymentPayload.payload?.authorization?.from || "unknown"`. -/
def payerField (w : World) (pp : JVal) (td : TxData) : JVal :=
  match td with
  | .sponsored .. => .str w.facPub
  | _ => jor td.payerv
      (jor (jget (jget (jget pp "payload") "authorization") "from") (.str "unknown"))

/-- The 200 success body of `/verify`. -/
def vAccept (w : World) (pp : JVal) (td : TxData) : VerifyResp :=
  { status := 200, isValid := true, invalidReason := none,
    payer := some (payerField w pp td),
    gasSponsoredByFacilitator := some (td.fmt == "facilitator_sponsored") }

/-- The `minimal`/`full` arm of the verify format dispatch: decode,
simulate, reject on a truthy simulation error, then perform the replay
check, swallowing any lookup exception.  Result `some r` is an early 400;
`none` falls through to the shared success response; `.error` propagates
to the `validationError` catch. -/
def mfVerify (w : World) (sigv txv : JVal) : Except String (Option VerifyResp) × List Eff :=
  if ¬ truthy txv then
    (.ok (some (vReject "Missing transaction data for full verification")), [])
  else
    match w.decodeTx txv with
    | .error e => (.error e, [])
    | .ok tx =>
      match w.simulate tx with
      | .error e => (.error e, [.simE tx])
      | .ok serr =>
        if truthy serr then
          (.ok (some (vReject ("Transaction simulation failed: " ++ jsonStr serr))), [.simE tx])
        else
          match w.getTx sigv with
          | .error _ => (.ok none, [.simE tx, .getTxE sigv])
          | .ok (some _) =>
            (.ok (some (vReject "Transaction already executed on blockchain")),
              [.simE tx, .getTxE sigv])
          | .ok none => (.ok none, [.simE tx, .getTxE sigv])

/-- The per-format dispatch inside the verify try block. -/
def verifyBranch (w : World) (td : TxData) : Except String (Option VerifyResp) × List Eff :=
  match td with
  | .sponsored _ ftx _ =>
    (match w.decodeTx ftx with
     | .error e => (.error e, [])
     | .ok tx =>
       match tx.feePayer with
       | none => (.error "Cannot read properties of null (reading equals)", [])
       | some fp =>
         if fp ≠ w.facPub then
           (.ok (some (vReject "Transaction fee payer is not the facilitator")), [])
         else
           match w.simulate tx with
           | .error e => (.error e, [.simE tx])
           | .ok serr =>
             if truthy serr then
               (.ok (some (vReject ("Transaction simulation failed: " ++ jsonStr serr))),
                 [.simE tx])
             else (.ok none, [.simE tx]))
  | .authOnly sigv _ _ _ _ =>
    (match w.getTx sigv with
     | .error _ => (.ok (some (vReject "Unable to verify transaction on blockchain")), [.getTxE sigv])
     | .ok none =>
       (.ok (some (vReject
          "Transaction not found on blockchain - payment may not have been submitted yet")),
         [.getTxE sigv])
     | .ok (some t) =>
       if truthy (metaErr t) then
         (.ok (some (vReject ("Transaction failed on blockchain: " ++ jsonStr (metaErr t)))),
           [.getTxE sigv])
       else (.ok none, [.getTxE sigv]))
  | .minimal sigv txv => mfVerify w sigv txv
  | .full sigv txv _ _ _ _ _ _ => mfVerify w sigv txv

/-- The body of the outer try of the `/verify` handler. -/
def verifyCore (w : World) (body : JVal) : Except String VerifyResp × List Eff :=
  let pp := jget body "paymentPayload"
  let pr := jget body "paymentRequirements"
  if ¬ (truthy pp && truthy pr) then
    (.ok (vReject "Missing paymentPayload or paymentRequirements"), [])
  else
    let nv := jget pp "network"
    if ¬ truthy nv then
      (.ok (vReject "Unsupported network - only Solana networks supported"), [])
    else
      match nv with
      | .str s =>
        if ¬ strStarts s "solana-" then
          (.ok (vReject "Unsupported network - only Solana networks supported"), [])
        else if ¬ supportedNetwork s then
          (.ok (vReject ("Unsupported network: " ++ s)), [])
        else
          match extractTransactionData pp with
          | .error m => (.ok (vReject ("Invalid payload format: " ++ m)), [])
          | .ok td =>
            match verifyBranch w td with
            | (.error e, tr) => (.ok (vReject ("Transaction validation failed: " ++ e)), tr)
            | (.ok (some r), tr) => (.ok r, tr)
            | (.ok none, tr) => (.ok (vAccept w pp td), tr)
      | _ => (.error "network.startsWith is not a function", [])

/-- The `/verify` handler: the outer catch turns any residual exception into
a 400 `Verification failed` body, so the handler is total. -/
def verifyHandler (w : World) (body : JVal) : VerifyResp × List Eff :=
  match verifyCore w body with
  | (.ok r, tr) => (r, tr)
  | (.error e, tr) => (vReject ("Verification failed: " ++ e), tr)

/-! ## Settlement engine (`settleSolanaTransaction` and `app.post /settle`) -/

/-- The fixed polling timeout (`timeout = 30000` at both call sites). -/
def settleTimeoutMs : Nat := 30000

/-- State of a settlement attempt when the polling loop exits. -/
structure PollOut where
  confirmed : Bool
  confirmationStatus : String
  slot : Option Int
  blockTime : Option Int
  fees : Option Int
deriving Repr, DecidableEq

/-- `status.value.confirmationStatus || "processed"`. -/
def csOf : Option String → String
  | none => "processed"
  | some s => if s == "" then "processed" else s

/-- The confirmation-polling loop of `settleSolanaTransaction`.  Iteration
`i` first tests `Date.now() - startTime < timeout` (modelled by
`w.elapsed i`), then polls.  A poll exception, and the explicit
`Transaction failed` throw raised when the status carries an error, are
both caught by the loop-internal `catch (statusError)`, so the loop only
exits by observing an error-free `confirmed`/`finalized` status or by the
time bound.  The fuel argument is only a termination device: with a
strictly increasing clock the bound fires long before `settleTimeoutMs + 1`
iterations. -/
def pollLoop (w : World) (sig : String) : Nat → Nat → String → PollOut × List Eff
  | 0, _, cs => (⟨false, cs, none, none, none⟩, [])
  | f + 1, i, cs =>
    if w.elapsed i < settleTimeoutMs then
      match w.poll i with
      | .error _ =>
        let r := pollLoop w sig f (i + 1) cs
        (r.1, .statusE i :: r.2)
      | .ok none =>
        let r := pollLoop w sig f (i + 1) cs
        (r.1, .statusE i :: r.2)
      | .ok (some st) =>
        let cs2 := csOf st.confirmationStatus
        if truthy st.err then
          let r := pollLoop w sig f (i + 1) cs2
          (r.1, .statusE i :: r.2)
        else if cs2 == "confirmed" || cs2 == "finalized" then
          match w.getTx (.str sig) with
          | .ok txo =>
            (⟨true, cs2, txo.map (fun t => t.slot), (txo.map (fun t => t.blockTime)).join,
               (txo.map (fun t => t.meta.map (fun m => m.fee))).join⟩,
             [.statusE i, .getTxE (.str sig)])
          | .error _ => (⟨true, cs2, none, none, none⟩, [.statusE i, .getTxE (.str sig)])
        else
          let r := pollLoop w sig f (i + 1) cs2
          (r.1, .statusE i :: r.2)
    else (⟨false, cs, none, none, none⟩, [])

/-- `true` when the `i`-th poll observes an error-free status of
`confirmed` or `finalized` — the only observation on which the loop sets
`confirmed = true`. -/
def goodPoll (w : World) (i : Nat) : Bool :=
  match w.poll i with
  | .ok (some st) =>
    !truthy st.err &&
      (csOf st.confirmationStatus == "confirmed" || csOf st.confirmationStatus == "finalized")
  | _ => false

/-- The `confirmationStatus` variable after processing polls
`i, i+1, ..., i+k-1`: each poll that returns a status value overwrites it,
everything else leaves it unchanged — i.e. the last observed status. -/
def obsFrom (w : World) : Nat → Nat → String → String
  | _, 0, cs => cs
  | i, k + 1, cs =>
    obsFrom w (i + 1) k
      (match w.poll i with
       | .ok (some st) => csOf st.confirmationStatus
       | _ => cs)

/-- The record returned by `settleSolanaTransaction`. -/
structure SettleRec where
  signature : JVal
  confirmed : Bool
  confirmationStatus : String
  slot : Option Int
  blockTime : Option Int
  fees : Option Int
deriving Repr

/-- `settleSolanaTransaction(connection, transactionBase64, opts)`: decode,
read the fee payer for logging, serialize, broadcast, then poll to
convergence or timeout. -/
def settleSolanaTransaction (w : World) (txB64 : JVal) : Except String SettleRec × List Eff :=
  match w.decodeTx txB64 with
  | .error e => (.error e, [])
  | .ok tx =>
    match tx.feePayer with
    | none => (.error "Cannot read properties of null (reading toBase58)", [])
    | some _ =>
      match w.serializeTx tx with
      | .error e => (.error e, [])
      | .ok _ =>
        match w.sendRaw tx with
        | .error e => (.error e, [.sendE tx])
        | .ok sig =>
          let r := pollLoop w sig (settleTimeoutMs + 1) 0 "processed"
          (.ok ⟨.str sig, r.1.confirmed, r.1.confirmationStatus, r.1.slot, r.1.blockTime,
             r.1.fees⟩,
           .sendE tx :: r.2)

/-- The JSON body of a `/settle` response. -/
structure SettleResp where
  status : Nat
  success : Bool
  errorReason : Option String
  transaction : JVal
  network : JVal
  payer : JVal
  confirmationStatus : Option String
  slot : Option Int
  blockTime : Option Int
  fees : Option Int
  gasSponsoredByFacilitator : Option Bool
  userPaidGas : Option Bool
deriving Repr

/-- The `minimal`/`full` settlement arm: broadcast and require confirmation
within the bound. -/
def mfSettle (w : World) (txv : JVal) : Except String SettleRec × List Eff :=
  if ¬ truthy txv then (.error "Missing transaction data for settlement", [])
  else
    match settleSolanaTransaction w txv with
    | (.error e, tr) => (.error e, tr)
    | (.ok r, tr) =>
      if ¬ r.confirmed then
        (.error ("Transaction not confirmed within timeout. Status: " ++ r.confirmationStatus), tr)
      else (.ok r, tr)

/-- The per-format dispatch of the `/settle` handler. -/
def settleBranch (w : World) (td : TxData) : Except String SettleRec × List Eff :=
  match td with
  | .sponsored _ ftx _ =>
    (match settleSolanaTransaction w ftx with
     | (.error e, tr) => (.error e, tr)
     | (.ok r, tr) =>
       if ¬ r.confirmed then
         (.error ("Facilitator-sponsored transaction not confirmed within timeout. Status: " ++
            r.confirmationStatus), tr)
       else (.ok r, tr))
  | .authOnly sigv _ _ _ _ =>
    (match w.getTx sigv with
     | .error e => (.error ("Failed to verify existing transaction: " ++ e), [.getTxE sigv])
     | .ok none =>
       (.error "Failed to verify existing transaction: Transaction not found on blockchain",
         [.getTxE sigv])
     | .ok (some t) =>
       if truthy (metaErr t) then
         (.error ("Failed to verify existing transaction: Transaction failed: " ++
            jsonStr (metaErr t)), [.getTxE sigv])
       else
         (.ok ⟨sigv, true, "confirmed", some t.slot, t.blockTime, t.meta.map (fun m => m.fee)⟩,
           [.getTxE sigv]))
  | .minimal _ txv => mfSettle w txv
  | .full _ txv _ _ _ _ _ _ => mfSettle w txv

/-- The 200 success body of `/settle`. -/
def settleSuccess (w : World) (pp nv : JVal) (td : TxData) (r : SettleRec) : SettleResp :=
  { status := 200, success := true, errorReason := none, transaction := r.signature,
    network := nv,
    payer := (match td with
      | .sponsored .. => .str w.facPub
      | _ => jor td.payerv
          (jor (jget (jget (jget pp "payload") "authorization") "from") (.str "unknown"))),
    confirmationStatus := some r.confirmationStatus, slot := r.slot, blockTime := r.blockTime,
    fees := r.fees,
    gasSponsoredByFacilitator := some (td.fmt == "facilitator_sponsored"),
    userPaidGas := some (td.fmt != "facilitator_sponsored") }

/-- The body of the try block of the `/settle` handler.  Unlike `/verify`,
missing inputs are not guarded: `paymentPayload.network` is an unguarded
access. -/
def settleCore (w : World) (pp : JVal) : Except String SettleResp × List Eff :=
  match jgetE pp "network" with
  | .error e => (.error e, [])
  | .ok nv =>
    if ¬ jnetOk nv then (.error "Invalid settlement request: unsupported network", [])
    else
      match extractTransactionData pp with
      | .error m => (.error ("Invalid payload format: " ++ m), [])
      | .ok td =>
        match settleBranch w td with
        | (.error e, tr) => (.error e, tr)
        | (.ok r, tr) => (.ok (settleSuccess w pp nv td r), tr)

/-- The `/settle` handler.  Its catch block itself reads
`paymentPayload.network` while building the 400 body; when that access
throws, the exception escapes the handler, modelled by an `.error`
result. -/
def settleHandler (w : World) (body : JVal) : Except String SettleResp × List Eff :=
  let pp := jget body "paymentPayload"
  match settleCore w pp with
  | (.ok r, tr) => (.ok r, tr)
  | (.error e, tr) =>
    match jgetE pp "network" with
    | .error e2 => (.error e2, tr)
    | .ok nv =>
      (.ok { status := 400, success := false, errorReason := some ("Settlement failed: " ++ e),
             transaction := .null, network := nv, payer := .null, confirmationStatus := none,
             slot := none, blockTime := none, fees := none,
             gasSponsoredByFacilitator := none, userPaidGas := none }, tr)

/-! ## Sponsored transaction builder
(`createFacilitatorPaidTransaction` and `app.post /create-sponsored-transaction`)

The builder manipulates a `@solana/web3.js` `Transaction` object before it
is wire-encoded, so this section also models the small slice of that
library the source exercises: `createTransferInstruction`,
signature-list compilation, `partialSign` and `serialize`. -/

/-- An account reference inside an instruction. -/
structure AccountMeta where
  pubkey : String
  isSigner : Bool
  isWritable : Bool
deriving Repr, DecidableEq

/-- An instruction: program id, account references, and the amount encoded
in its data (the only data the transfer instruction carries). -/
structure Instr where
  programId : String
  keys : List AccountMeta
  amount : Int
deriving Repr, DecidableEq

/-- The SPL token program id. -/
def tokenProgramId : String := "TokenkegQfeZyiNwAJbNbGKPFXCWuBvf9Ss623VQ5DA"

/-- Models `createTransferInstruction(source, destination, owner, amount,
[], TOKEN_PROGRAM_ID)` of `@solana/spl-token` (single-owner case): source
and destination are writable non-signers, the owner is the signing
authority. -/
def createTransferInstruction (source destination owner : String) (amount : Int) : Instr :=
  { programId := tokenProgramId,
    keys := [⟨source, false, true⟩, ⟨destination, false, true⟩, ⟨owner, true, false⟩],
    amount := amount }

/-- A `web3.js` `Transaction` under construction.  Each signature slot is a
public key paired with whether a signature has been collected for it. -/
structure TxBuild where
  instructions : List Instr
  recentBlockhash : Option String
  feePayer : Option String
  signatures : List (String × Bool)
deriving Repr, DecidableEq

/-- Deduplication keeping first occurrences, as `web3.js` merges duplicate
account metas. -/
def dedupFirst : List String → List String
  | [] => []
  | x :: xs => x :: (dedupFirst xs).filter (fun y => y != x)

/-- Every account key referenced by the compiled message: the fee payer,
instruction accounts and program ids (membership below is unaffected by
deduplication, so the raw list is kept). -/
def txAccountKeys (tx : TxBuild) (fp : String) : List String :=
  fp :: ((tx.instructions.map (fun ix => ix.keys.map (fun k => k.pubkey))).flatten ++
    tx.instructions.map (fun ix => ix.programId))

/-- Models `compileMessage`: the required signers in message order — fee
payer first, then the deduplicated instruction signers; any entry of the
existing signature list whose key is not among the message accounts makes
compilation throw `unknown signer`. -/
def compiledSigners (tx : TxBuild) : Except String (List String) :=
  match tx.feePayer with
  | none => .error "Transaction fee payer required"
  | some fp =>
    let insSigners :=
      dedupFirst ((tx.instructions.map
        (fun ix => (ix.keys.filter (fun k => k.isSigner)).map (fun k => k.pubkey))).flatten)
    let signers := fp :: insSigners.filter (fun k => k != fp)
    if tx.signatures.all (fun p => (txAccountKeys tx fp).contains p.1) then .ok signers
    else .error "unknown signer"

/-- Models `_compile` followed by `_partialSign(keypair)`: when the
existing signature slots do not match the compiled signer list they are
reset to all-unsigned slots in message order, then the keypair's slot is
marked signed. -/
def compileAndSign (tx : TxBuild) (kp : String) : Except String TxBuild :=
  match compiledSigners tx with
  | .error e => .error e
  | .ok signers =>
    let sigs := if tx.signatures.map (fun p => p.1) = signers then tx.signatures
                else signers.map (fun k => (k, false))
    if signers.contains kp then
      .ok { tx with signatures := sigs.map (fun p => if p.1 = kp then (p.1, true) else p) }
    else .error ("unknown signer: " ++ kp)

/-- Models `serialize(\x7b requireAllSignatures \x7d)`: re-compile the
signature slots, then fail exactly when all signatures are required and a
slot is unsigned.  The successful encoding is represented by the compiled
transaction itself. -/
def serializeB (tx : TxBuild) (requireAllSignatures : Bool) : Except String TxBuild :=
  match compiledSigners tx with
  | .error e => .error e
  | .ok signers =>
    let sigs := if tx.signatures.map (fun p => p.1) = signers then tx.signatures
                else signers.map (fun k => (k, false))
    if requireAllSignatures && sigs.any (fun p => !p.2) then
      .error "Signature verification failed"
    else .ok { tx with signatures := sigs }

/-- `createFacilitatorPaidTransaction(connection, userPublicKey,
paymentRequirements)`: fetch a blockhash, derive both associated token
accounts, build the single transfer instruction with the user as
authority, set the facilitator as fee payer, push an unsigned slot for the
user, and partial-sign as the facilitator. -/
def createFacilitatorPaidTransaction (w : World) (userPublicKey pr : JVal) :
    Except String TxBuild × List Eff :=
  match w.latestBlockhash with
  | .error e => (.error e, [.blockhashE])
  | .ok bh =>
    match w.parsePk (jget pr "asset") with
    | .error e => (.error e, [.blockhashE])
    | .ok assetPk =>
      match w.parsePk userPublicKey with
      | .error e => (.error e, [.blockhashE])
      | .ok userPk =>
        match w.getAta assetPk userPk with
        | .error e => (.error e, [.blockhashE])
        | .ok userTokenAccount =>
          match w.parsePk (jget pr "payTo") with
          | .error e => (.error e, [.blockhashE])
          | .ok payToPk =>
            match w.getAta assetPk payToPk with
            | .error e => (.error e, [.blockhashE])
            | .ok recipientTokenAccount =>
              match w.toBigInt (jget pr "maxAmountRequired") with
              | .error e => (.error e, [.blockhashE])
              | .ok amt =>
                let ti := createTransferInstruction userTokenAccount recipientTokenAccount
                  userPk amt
                let tx0 : TxBuild := ⟨[ti], some bh, some w.facPub, []⟩
                let tx1 := if (tx0.signatures.find? (fun p => p.1 == userPk)).isSome then tx0
                           else { tx0 with signatures := tx0.signatures ++ [(userPk, false)] }
                match compileAndSign tx1 w.facPub with
                | .error e => (.error e, [.blockhashE])
                | .ok tx2 => (.ok tx2, [.blockhashE])

/-- The JSON body of a `/create-sponsored-transaction` response. -/
structure CreateResp where
  status : Nat
  success : Bool
  transaction : Option TxBuild
  facilitatorPublicKey : Option String
  message : Option String
  blockhash : Option String
  feePaidBy : Option String
  error : Option String
deriving Repr

/-- A 400 failure body for `/create-sponsored-transaction`. -/
def createErrResp (m : String) : CreateResp :=
  { status := 400, success := false, transaction := none, facilitatorPublicKey := none,
    message := none, blockhash := none, feePaidBy := none, error := some m }

/-- The `/create-sponsored-transaction` handler: input guards, network
lookup, transaction construction, and the final encoding with
`requireAllSignatures: false`. -/
def createSponsoredHandler (w : World) (body : JVal) : CreateResp × List Eff :=
  let upk := jget body "userPublicKey"
  let pr := jget body "paymentRequirements"
  if ¬ truthy upk then (createErrResp "Missing userPublicKey", [])
  else if ¬ truthy pr then (createErrResp "Missing paymentRequirements", [])
  else if ¬ jnetOk (jget pr "network") then
    (createErrResp ("Unsupported network: " ++ jdisp (jget pr "network")), [])
  else
    match createFacilitatorPaidTransaction w upk pr with
    | (.error e, tr) => (createErrResp ("Failed to create sponsored transaction: " ++ e), tr)
    | (.ok tx, tr) =>
      match serializeB tx false with
      | .error e => (createErrResp ("Failed to create sponsored transaction: " ++ e), tr)
      | .ok enc =>
        ({ status := 200, success := true, transaction := some enc,
           facilitatorPublicKey := some w.facPub,
           message := some ("Transaction created with facilitator as fee payer. " ++
             "User needs to sign for token transfer authority."),
           blockhash := tx.recentBlockhash, feePaidBy := some "facilitator", error := none }, tr)

/-! ## General lemmas about the embedding -/

/-- A value with a truthy field is an object (primitive property access
yields `undefined`, which is falsy). -/
lemma truthy_of_truthy_jget {pp : JVal} {k : String} (h : truthy (jget pp k) = true) :
    truthy pp = true := by
  cases pp <;> simp [jget, truthy] at h ⊢

/-- Successful extraction means the inner payload was truthy. -/
lemma extract_ok_truthy {pp : JVal} {td : TxData}
    (h : extractTransactionData pp = .ok td) : truthy (jget pp "payload") = true := by
  cases hq : truthy (jget pp "payload") with
  | true => rfl
  | false => simp [extractTransactionData, hq] at h

/-- An extracted `minimal` or `full` record carries a truthy `transaction`
field: the classification conditions require it. -/
lemma extract_mf_txv {pp : JVal} {td : TxData}
    (h : extractTransactionData pp = .ok td)
    (hf : td.fmt = "minimal" ∨ td.fmt = "full") : truthy td.txv = true := by
  simp only [extractTransactionData] at h
  split_ifs at h with h0 h1 h2 h3 h4 <;> cases h <;>
    simp_all [TxData.fmt, TxData.txv, minCond, fullCond]

/-! ## Claim theorems -/

/-- C1: on every payment payload whose inner document is present,
`extractTransactionData` assigns exactly one of the four tags, deciding by
field presence in the fixed priority order `facilitator_sponsored` →
`minimal` → `full` → `authorization_only` with the first full match
winning; a payload matching none of the shapes yields a format error whose
message lists the field names actually present. -/
theorem extract_classifies_in_priority_order (pp : JVal)
    (hp : truthy (jget pp "payload") = true) :
    (sponsCond (jget pp "payload") = true →
      extractTransactionData pp = .ok (.sponsored
        (jget (jget pp "payload") "userSignature")
        (jget (jget pp "payload") "facilitatorTransaction")
        (jget (jget pp "payload") "userPublicKey"))) ∧
    (sponsCond (jget pp "payload") = false → minCond (jget pp "payload") = true →
      extractTransactionData pp = .ok (.minimal
        (jget (jget pp "payload") "signature")
        (jget (jget pp "payload") "transaction"))) ∧
    (sponsCond (jget pp "payload") = false → minCond (jget pp "payload") = false →
      fullCond (jget pp "payload") = true →
      extractTransactionData pp = .ok (.full
        (jget (jget pp "payload") "signature")
        (jget (jget pp "payload") "transaction")
        (jget (jget pp "payload") "payer")
        (jget (jget pp "payload") "amount")
        (jget (jget pp "payload") "mint")
        (jget (jget pp "payload") "recipient")
        (jget (jget pp "payload") "blockhash")
        (jget (jget pp "payload") "memo"))) ∧
    (sponsCond (jget pp "payload") = false → minCond (jget pp "payload") = false →
      fullCond (jget pp "payload") = false → authCond (jget pp "payload") = true →
      extractTransactionData pp = .ok (.authOnly
        (jget (jget pp "payload") "signature")
        (jget (jget (jget pp "payload") "authorization") "from")
        (jget (jget (jget pp "payload") "authorization") "to")
        (jget (jget (jget pp "payload") "authorization") "value")
        (jget (jget (jget pp "payload") "authorization") "nonce"))) ∧
    (sponsCond (jget pp "payload") = false → minCond (jget pp "payload") = false →
      fullCond (jget pp "payload") = false → authCond (jget pp "payload") = false →
      extractTransactionData pp = .error
        ("Unrecognized payload format. Available fields: " ++
          String.intercalate ", " (jkeys (jget pp "payload")) ++
          ". Expected: signature + transaction (+ optional payer, amount, etc.)")) := by
  refine ⟨?_, ?_, ?_, ?_, ?_⟩ <;> intros <;>
    simp_all [extractTransactionData, unrecognizedMsg]

/-- Witness for `extract_classifies_in_priority_order` at a concrete
payload that satisfies both the `minimal` and, but for priority, no other
shape. -/
theorem extract_classifies_in_priority_order_witness :
    truthy (jget (JVal.obj [("payload", .obj [("signature", .str "S"),
        ("transaction", .str "T")])]) "payload") = true ∧
    (sponsCond (jget (JVal.obj [("payload", .obj [("signature", .str "S"),
        ("transaction", .str "T")])]) "payload") = false →
      minCond (jget (JVal.obj [("payload", .obj [("signature", .str "S"),
        ("transaction", .str "T")])]) "payload") = true →
      extractTransactionData (JVal.obj [("payload", .obj [("signature", .str "S"),
        ("transaction", .str "T")])]) = .ok (.minimal
        (jget (jget (JVal.obj [("payload", .obj [("signature", .str "S"),
          ("transaction", .str "T")])]) "payload") "signature")
        (jget (jget (JVal.obj [("payload", .obj [("signature", .str "S"),
          ("transaction", .str "T")])]) "payload") "transaction"))) :=
  ⟨by decide,
   (extract_classifies_in_priority_order
     (JVal.obj [("payload", .obj [("signature", .str "S"), ("transaction", .str "T")])])
     (by decide)).2.1⟩

/-- A supported network name is non-empty (hence truthy). -/
lemma supported_ne_empty {s : String} (h : supportedNetwork s = true) : (s != "") = true := by
  simp only [supportedNetwork, Bool.or_eq_true, beq_iff_eq] at h
  rcases h with (h | h) | h <;> subst h <;> decide

/-- C2: a `facilitator_sponsored` payload whose decoded embedded
transaction names a fee payer different from the facilitator's public key
is rejected with `isValid:false` and the specific reason string, with an
empty effect trace — in particular the verdict is the same for every
simulation behaviour, so the rejection is decided before and independently
of simulation. -/
theorem sponsored_feepayer_mismatch_rejected (w : World) (body us ftx upk : JVal)
    (tx : Tx) (fp s : String)
    (hpr : truthy (jget body "paymentRequirements") = true)
    (hnet : jget (jget body "paymentPayload") "network" = .str s)
    (hsol : strStarts s "solana-" = true)
    (hsup : supportedNetwork s = true)
    (hext : extractTransactionData (jget body "paymentPayload") = .ok (.sponsored us ftx upk))
    (hdec : w.decodeTx ftx = .ok tx)
    (hfp : tx.feePayer = some fp)
    (hne : fp ≠ w.facPub) :
    ∀ sim2 : Tx → Except String JVal,
      verifyHandler { w with simulate := sim2 } body =
        (vReject "Transaction fee payer is not the facilitator", []) := by
  intro sim2
  have htp : truthy (jget body "paymentPayload") = true :=
    truthy_of_truthy_jget (extract_ok_truthy hext)
  have hs : (s != "") = true := supported_ne_empty hsup
  have hnv : truthy (JVal.str s) = true := by simp [truthy, hs]
  simp [verifyHandler, verifyCore, verifyBranch, htp, hpr, hnet, hnv, hsol, hsup, hext, hdec,
    hfp, hne]

/-- Concrete world for the C2 witness. -/
def wC2 : World :=
  { facPub := "FAC"
  , decodeTx := fun _ => .ok ⟨some "U"⟩
  , serializeTx := fun _ => .ok ()
  , simulate := fun _ => .ok .null
  , getTx := fun _ => .ok none
  , sendRaw := fun _ => .ok "SIG"
  , elapsed := fun i => i
  , poll := fun _ => .ok none
  , latestBlockhash := .ok "BH"
  , parsePk := fun _ => .ok "PK"
  , getAta := fun _ _ => .ok "ATA"
  , toBigInt := fun _ => .ok 0
  , sent := [] }

/-- Concrete body for the C2 witness: a sponsored payload whose embedded
transaction decodes (under `wC2`) to fee payer `U ≠ FAC`. -/
def bodyC2 : JVal := .obj
  [("paymentPayload", .obj [("network", .str "solana-devnet"),
     ("payload", .obj [("userSignature", .str "us"),
        ("facilitatorTransaction", .str "ft"), ("userPublicKey", .str "U")])]),
   ("paymentRequirements", .obj [])]

/-- Witness for `sponsored_feepayer_mismatch_rejected`: concrete payload,
instantiated at one particular simulation behaviour. -/
theorem sponsored_feepayer_mismatch_rejected_witness :
    verifyHandler { wC2 with simulate := fun _ => .ok .null } bodyC2 =
      (vReject "Transaction fee payer is not the facilitator", []) :=
  sponsored_feepayer_mismatch_rejected wC2 bodyC2 (.str "us") (.str "ft") (.str "U")
    ⟨some "U"⟩ "U" "solana-devnet" (by decide) rfl (by decide) (by decide) rfl rfl rfl
    (by decide) (fun _ => .ok .null)

/-- The `minimal`/`full` verify arm emits only simulation and lookup
effects. -/
lemma mfVerify_effs (w : World) (sigv txv : JVal) :
    (mfVerify w sigv txv).2.all isVerifyEff = true := by
  unfold mfVerify
  repeat' split
  all_goals simp [isVerifyEff]

/-- Every verify format arm emits only simulation and lookup effects. -/
lemma verifyBranch_effs (w : World) (td : TxData) :
    (verifyBranch w td).2.all isVerifyEff = true := by
  cases td with
  | minimal sigv txv => exact mfVerify_effs w sigv txv
  | full sigv txv p a m r b mm => exact mfVerify_effs w sigv txv
  | sponsored us ftx upk =>
    simp only [verifyBranch]
    repeat' split
    all_goals simp [isVerifyEff]
  | authOnly sigv p r a m =>
    simp only [verifyBranch]
    repeat' split
    all_goals simp [isVerifyEff]

/-- The try-block body of `/verify` emits only simulation and lookup
effects. -/
lemma verifyCore_effs (w : World) (body : JVal) :
    (verifyCore w body).2.all isVerifyEff = true := by
  simp only [verifyCore]
  repeat' split
  all_goals
    try (rename_i heq
         have h := verifyBranch_effs w ‹TxData›
         rw [heq] at h
         simpa using h)
  all_goals simp [isVerifyEff]

/-- The whole `/verify` handler emits only simulation and lookup
effects. -/
lemma verifyHandler_effs (w : World) (body : JVal) :
    (verifyHandler w body).2.all isVerifyEff = true := by
  have h := verifyCore_effs w body
  unfold verifyHandler
  split <;> rename_i heq <;> rw [heq] at h <;> simpa using h

/-- A trace of simulation/lookup effects leaves the world unchanged. -/
lemma worldAfter_eq_of_verifyEffs (w : World) (t : List Eff)
    (h : t.all isVerifyEff = true) : worldAfter w t = w := by
  induction t generalizing w with
  | nil => rfl
  | cons e rest ih =>
    simp only [List.all_cons, Bool.and_eq_true] at h
    have he : applyEff w e = w := by
      cases e <;> simp_all [applyEff, isVerifyEff]
    calc worldAfter w (e :: rest) = worldAfter (applyEff w e) rest := rfl
      _ = worldAfter w rest := by rw [he]
      _ = w := ih w h.2

/-- C3: on every input, the `/verify` handler performs only simulation and
read-only transaction lookups — never a broadcast — so it leaves the world
unchanged, and running it a second time after its own effects yields the
same verdict. -/
theorem verify_read_only_and_idempotent (w : World) (body : JVal) :
    (verifyHandler w body).2.all isVerifyEff = true ∧
    worldAfter w (verifyHandler w body).2 = w ∧
    verifyHandler (worldAfter w (verifyHandler w body).2) body = verifyHandler w body := by
  have h1 := verifyHandler_effs w body
  have h2 := worldAfter_eq_of_verifyEffs w (verifyHandler w body).2 h1
  exact ⟨h1, h2, by rw [h2]⟩

/-! ## Poll-loop lemmas for the settlement engine -/

/-- When iteration `i` is inside the time bound but does not observe an
error-free terminal status, the loop steps to iteration `i + 1`, updating
the status variable exactly when the poll returned a status value. -/
lemma pollLoop_step_not_good (w : World) (sig : String) (f i : Nat) (cs : String)
    (he : w.elapsed i < settleTimeoutMs) (hg : goodPoll w i = false) :
    (pollLoop w sig (f + 1) i cs).1 = (pollLoop w sig f (i + 1)
      (match w.poll i with
       | .ok (some st) => csOf st.confirmationStatus
       | _ => cs)).1 := by
  rcases hp : w.poll i with e | ost
  · simp [pollLoop, he, hp]
  · cases ost with
    | none => simp [pollLoop, he, hp]
    | some st =>
      by_cases herr : truthy st.err = true
      · simp [pollLoop, he, hp, herr]
      · have hcs : (csOf st.confirmationStatus == "confirmed" ||
            csOf st.confirmationStatus == "finalized") = false := by
          simp only [goodPoll, hp, Bool.and_eq_false_iff, Bool.not_eq_false'] at hg
          rcases hg with hg | hg
          · exact absurd hg herr
          · exact hg
        simp [pollLoop, he, hp, herr, hcs]

/-- Shifting the "first good observation within the bound" description one
iteration forward, across a non-good iteration. -/
lemma goodPoll_shift_iff (w : World) (i f : Nat)
    (hg : goodPoll w i = false) (he : w.elapsed i < settleTimeoutMs) :
    (∃ k, k < f ∧ goodPoll w (i + 1 + k) = true ∧
       ∀ j, j ≤ k → w.elapsed (i + 1 + j) < settleTimeoutMs) ↔
    (∃ k, k < f + 1 ∧ goodPoll w (i + k) = true ∧
       ∀ j, j ≤ k → w.elapsed (i + j) < settleTimeoutMs) := by
  constructor
  · rintro ⟨k, hk, hgk, hb⟩
    refine ⟨k + 1, by omega, ?_, ?_⟩
    · rw [show i + (k + 1) = i + 1 + k by omega]
      exact hgk
    · intro j hj
      cases j with
      | zero => simpa using he
      | succ j' =>
        rw [show i + (j' + 1) = i + 1 + j' by omega]
        exact hb j' (by omega)
  · rintro ⟨k, hk, hgk, hb⟩
    cases k with
    | zero => simp [hg] at hgk
    | succ k' =>
      refine ⟨k', by omega, ?_, ?_⟩
      · rw [show i + 1 + k' = i + (k' + 1) by omega]
        exact hgk
      · intro j hj
        rw [show i + 1 + j = i + (j + 1) by omega]
        exact hb (j + 1) (by omega)

/-- The loop reports `confirmed = true` exactly when some iteration `k`
within the fuel bound observes an error-free `confirmed`/`finalized`
status while every check up to and including `k` is still inside the time
bound. -/
lemma pollLoop_confirmed_iff (w : World) (sig : String) :
    ∀ (f i : Nat) (cs : String),
      ((pollLoop w sig f i cs).1.confirmed = true ↔
        ∃ k, k < f ∧ goodPoll w (i + k) = true ∧
          ∀ j, j ≤ k → w.elapsed (i + j) < settleTimeoutMs) := by
  intro f
  induction f with
  | zero => intro i cs; simp [pollLoop]
  | succ f ih =>
    intro i cs
    by_cases he : w.elapsed i < settleTimeoutMs
    · by_cases hgood : goodPoll w i = true
      · -- this iteration confirms
        rcases hp : w.poll i with e | ost
        · simp [goodPoll, hp] at hgood
        · cases ost with
          | none => simp [goodPoll, hp] at hgood
          | some st =>
            simp only [goodPoll, hp, Bool.and_eq_true, Bool.not_eq_true'] at hgood
            have hlhs : (pollLoop w sig (f + 1) i cs).1.confirmed = true := by
              simp only [pollLoop, he, if_true, hp, hgood.1, Bool.false_eq_true, if_false,
                hgood.2, if_true]
              rcases hgt : w.getTx (.str sig) with e | txo <;> simp
            rw [hlhs]
            constructor
            · intro _
              refine ⟨0, by omega, ?_, ?_⟩
              · simp [goodPoll, hp, hgood.1, hgood.2]
              · intro j hj
                obtain rfl : j = 0 := Nat.le_zero.mp hj
                simpa using he
            · intro _; rfl
      · have hg : goodPoll w i = false := by simpa using hgood
        rw [pollLoop_step_not_good w sig f i cs he hg]
        exact (ih (i + 1) _).trans (goodPoll_shift_iff w i f hg he)
    · simp only [pollLoop, if_neg he]
      constructor
      · intro h; simp at h
      · rintro ⟨k, _, _, hb⟩
        exact absurd (by simpa using hb 0 (Nat.zero_le k)) he

/-- A loop that confirms reports a `confirmed` or `finalized` status. -/
lemma pollLoop_status_of_confirmed (w : World) (sig : String) :
    ∀ (f i : Nat) (cs : String),
      (pollLoop w sig f i cs).1.confirmed = true →
      ((pollLoop w sig f i cs).1.confirmationStatus = "confirmed" ∨
        (pollLoop w sig f i cs).1.confirmationStatus = "finalized") := by
  intro f
  induction f with
  | zero => intro i cs h; simp [pollLoop] at h
  | succ f ih =>
    intro i cs h
    by_cases he : w.elapsed i < settleTimeoutMs
    · by_cases hgood : goodPoll w i = true
      · rcases hp : w.poll i with e | ost
        · simp [goodPoll, hp] at hgood
        · cases ost with
          | none => simp [goodPoll, hp] at hgood
          | some st =>
            simp only [goodPoll, hp, Bool.and_eq_true, Bool.not_eq_true'] at hgood
            have hst : (pollLoop w sig (f + 1) i cs).1.confirmationStatus =
                csOf st.confirmationStatus := by
              simp only [pollLoop, he, if_true, hp, hgood.1, Bool.false_eq_true, if_false,
                hgood.2, if_true]
              rcases hgt : w.getTx (.str sig) with e | txo <;> simp
            rw [hst]
            simpa [beq_iff_eq] using hgood.2
      · have hg : goodPoll w i = false := by simpa using hgood
        rw [pollLoop_step_not_good w sig f i cs he hg] at h ⊢
        exact ih (i + 1) _ h
    · simp [pollLoop, if_neg he] at h

/-- A loop that exits by the time bound at check `k`, with no good
observation before, reports `confirmed = false` together with the status
value of the last poll that produced one. -/
lemma pollLoop_timeout_status (w : World) (sig : String) :
    ∀ (k f i : Nat) (cs : String), k < f →
      (∀ j, j < k → w.elapsed (i + j) < settleTimeoutMs) →
      ¬ w.elapsed (i + k) < settleTimeoutMs →
      (∀ j, j < k → goodPoll w (i + j) = false) →
      (pollLoop w sig f i cs).1 = ⟨false, obsFrom w i k cs, none, none, none⟩ := by
  intro k
  induction k with
  | zero =>
    intro f i cs hf hb he hg
    cases f with
    | zero => omega
    | succ f =>
      rw [Nat.add_zero] at he
      simp [pollLoop, if_neg he, obsFrom]
  | succ k ih =>
    intro f i cs hf hb he hg
    cases f with
    | zero => omega
    | succ f =>
      have he0 : w.elapsed i < settleTimeoutMs := by simpa using hb 0 (by omega)
      have hg0 : goodPoll w i = false := by simpa using hg 0 (by omega)
      rw [pollLoop_step_not_good w sig f i cs he0 hg0]
      have hrec := ih f (i + 1)
        (match w.poll i with
         | .ok (some st) => csOf st.confirmationStatus
         | _ => cs)
        (by omega)
        (fun j hj => by
          have := hb (j + 1) (by omega)
          rwa [show i + (j + 1) = i + 1 + j by omega] at this)
        (by rwa [show i + 1 + k = i + (k + 1) by omega])
        (fun j hj => by
          have := hg (j + 1) (by omega)
          rwa [show i + (j + 1) = i + 1 + j by omega] at this)
      rw [hrec]
      rcases hp : w.poll i with e | ost
      · simp [obsFrom, hp]
      · cases ost with
        | none => simp [obsFrom, hp]
        | some st => simp [obsFrom, hp]

/-- World for the C4 counterexample: the first poll observes
`confirmationStatus: "confirmed"` but together with a truthy transaction
error, and the clock passes the timeout bound at the second check. -/
def wC4cex : World :=
  { facPub := "FAC"
  , decodeTx := fun _ => .ok ⟨some "FAC"⟩
  , serializeTx := fun _ => .ok ()
  , simulate := fun _ => .ok .null
  , getTx := fun _ => .ok none
  , sendRaw := fun _ => .ok "SIG"
  , elapsed := fun i => i * settleTimeoutMs
  , poll := fun _ => .ok (some ⟨some "confirmed", .str "InstructionError"⟩)
  , latestBlockhash := .ok "BH"
  , parsePk := fun _ => .ok "PK"
  , getAta := fun _ _ => .ok "ATA"
  , toBigInt := fun _ => .ok 0
  , sent := [] }

/-- C4 counterexample: a settlement attempt in which a polled confirmation
status of `confirmed` is observed before the timeout bound elapses, yet
the returned record has `confirmed = false` — because the status was
accompanied by a transaction error, whose deliberate `throw` is swallowed
by the loop-internal catch.  This refutes the claim that `confirmed = true`
holds exactly when `confirmed`/`finalized` is observed in time. -/
theorem settle_confirmed_counterexample :
    wC4cex.elapsed 0 < settleTimeoutMs ∧
    wC4cex.poll 0 = .ok (some ⟨some "confirmed", .str "InstructionError"⟩) ∧
    csOf (some "confirmed") = "confirmed" ∧
    ∃ r, (settleSolanaTransaction wC4cex (.str "tx")).1 = .ok r ∧
      r.confirmed = false ∧ r.confirmationStatus = "confirmed" :=
  ⟨by decide, rfl, by decide,
   ⟨⟨.str "SIG", false, "confirmed", none, none, none⟩, rfl, rfl, rfl⟩⟩

/-- C4 (amended): for a settlement attempt whose broadcast succeeds, under
a strictly increasing clock, the returned record carries the broadcast
signature, `confirmed = true` holds exactly when some poll observes an
error-free status of `confirmed` or `finalized` with every check up to it
inside the timeout bound, a confirmed record carries a `confirmed` or
`finalized` status, and a non-confirmed record reports, alongside
`confirmed = false`, the last observed confirmation status at the moment
the bound fired. -/
theorem settleTx_confirmed_characterization (w : World) (txB64 : JVal) (tx : Tx)
    (fp sig : String)
    (hmono : ∀ i, w.elapsed i < w.elapsed (i + 1))
    (hdec : w.decodeTx txB64 = .ok tx)
    (hfp : tx.feePayer = some fp)
    (hser : w.serializeTx tx = .ok ())
    (hsend : w.sendRaw tx = .ok sig) :
    ∃ r, (settleSolanaTransaction w txB64).1 = .ok r ∧
      r.signature = .str sig ∧
      (r.confirmed = true ↔
        ∃ k, goodPoll w k = true ∧ ∀ j, j ≤ k → w.elapsed j < settleTimeoutMs) ∧
      (r.confirmed = true →
        r.confirmationStatus = "confirmed" ∨ r.confirmationStatus = "finalized") ∧
      (r.confirmed = false →
        ∃ k, (∀ j, j < k → w.elapsed j < settleTimeoutMs) ∧
          ¬ w.elapsed k < settleTimeoutMs ∧
          r.confirmationStatus = obsFrom w 0 k "processed") := by
  have hge : ∀ j, j ≤ w.elapsed j := by
    intro j
    induction j with
    | zero => exact Nat.zero_le _
    | succ j ih => exact Nat.lt_of_le_of_lt ih (hmono j)
  refine ⟨⟨.str sig,
    (pollLoop w sig (settleTimeoutMs + 1) 0 "processed").1.confirmed,
    (pollLoop w sig (settleTimeoutMs + 1) 0 "processed").1.confirmationStatus,
    (pollLoop w sig (settleTimeoutMs + 1) 0 "processed").1.slot,
    (pollLoop w sig (settleTimeoutMs + 1) 0 "processed").1.blockTime,
    (pollLoop w sig (settleTimeoutMs + 1) 0 "processed").1.fees⟩, ?_, rfl, ?_, ?_, ?_⟩
  · simp [settleSolanaTransaction, hdec, hfp, hser, hsend]
  · -- the confirmed-iff characterization
    refine (pollLoop_confirmed_iff w sig (settleTimeoutMs + 1) 0 "processed").trans ?_
    constructor
    · rintro ⟨k, _, hgk, hb⟩
      exact ⟨k, by simpa using hgk, fun j hj => by simpa using hb j hj⟩
    · rintro ⟨k, hgk, hb⟩
      have hk : k < settleTimeoutMs + 1 := by
        have h1 := hb k le_rfl
        have h2 := hge k
        omega
      exact ⟨k, hk, by simpa using hgk, fun j hj => by simpa using hb j hj⟩
  · exact pollLoop_status_of_confirmed w sig (settleTimeoutMs + 1) 0 "processed"
  · intro hc
    have hex : ∃ k, ¬ w.elapsed k < settleTimeoutMs :=
      ⟨settleTimeoutMs, by have := hge settleTimeoutMs; omega⟩
    refine ⟨Nat.find hex, ?_, Nat.find_spec hex, ?_⟩
    · intro j hj
      have := Nat.find_min hex hj
      omega
    · have hKf : Nat.find hex < settleTimeoutMs + 1 := by
        have : Nat.find hex ≤ settleTimeoutMs :=
          Nat.find_le (by have := hge settleTimeoutMs; omega)
        omega
      have hnog : ∀ j, j < Nat.find hex → goodPoll w j = false := by
        intro j hj
        by_contra hgj
        have hgj : goodPoll w j = true := by simpa using hgj
        have : (pollLoop w sig (settleTimeoutMs + 1) 0 "processed").1.confirmed = true := by
          rw [pollLoop_confirmed_iff]
          refine ⟨j, by omega, by simpa using hgj, fun j' hj' => ?_⟩
          have := Nat.find_min hex (show j' < Nat.find hex by omega)
          simpa using by omega
        rw [this] at hc
        cases hc
      have := pollLoop_timeout_status w sig (Nat.find hex) (settleTimeoutMs + 1) 0 "processed"
        hKf
        (fun j hj => by
          have := Nat.find_min hex hj
          simpa using by omega)
        (by simpa using Nat.find_spec hex)
        (fun j hj => by simpa using hnog j hj)
      rw [this]

/-- Concrete world for the C4 witness: a strictly increasing clock and an
error-free `confirmed` status at the first poll. -/
def wC4w : World :=
  { facPub := "FAC"
  , decodeTx := fun _ => .ok ⟨some "FAC"⟩
  , serializeTx := fun _ => .ok ()
  , simulate := fun _ => .ok .null
  , getTx := fun _ => .ok none
  , sendRaw := fun _ => .ok "SIG"
  , elapsed := fun i => i
  , poll := fun _ => .ok (some ⟨some "confirmed", .null⟩)
  , latestBlockhash := .ok "BH"
  , parsePk := fun _ => .ok "PK"
  , getAta := fun _ _ => .ok "ATA"
  , toBigInt := fun _ => .ok 0
  , sent := [] }

/-- Witness for `settleTx_confirmed_characterization` at the concrete
world `wC4w`. -/
theorem settleTx_confirmed_characterization_witness :
    ∃ r, (settleSolanaTransaction wC4w (.str "tx")).1 = .ok r ∧
      r.signature = .str "SIG" ∧
      (r.confirmed = true ↔
        ∃ k, goodPoll wC4w k = true ∧ ∀ j, j ≤ k → wC4w.elapsed j < settleTimeoutMs) ∧
      (r.confirmed = true →
        r.confirmationStatus = "confirmed" ∨ r.confirmationStatus = "finalized") ∧
      (r.confirmed = false →
        ∃ k, (∀ j, j < k → wC4w.elapsed j < settleTimeoutMs) ∧
          ¬ wC4w.elapsed k < settleTimeoutMs ∧
          r.confirmationStatus = obsFrom wC4w 0 k "processed") :=
  settleTx_confirmed_characterization wC4w (.str "tx") ⟨some "FAC"⟩ "FAC" "SIG"
    (fun i => Nat.lt_succ_self i) rfl rfl rfl rfl

/-- Concrete world for C5: broadcast succeeds with signature `SIG`, but no
poll ever returns a status value and the clock passes the bound at the
second check. -/
def wC5to : World :=
  { facPub := "FAC"
  , decodeTx := fun _ => .ok ⟨some "U"⟩
  , serializeTx := fun _ => .ok ()
  , simulate := fun _ => .ok .null
  , getTx := fun _ => .ok none
  , sendRaw := fun _ => .ok "SIG"
  , elapsed := fun i => i * settleTimeoutMs
  , poll := fun _ => .ok none
  , latestBlockhash := .ok "BH"
  , parsePk := fun _ => .ok "PK"
  , getAta := fun _ _ => .ok "ATA"
  , toBigInt := fun _ => .ok 0
  , sent := [] }

/-- Concrete `/settle` body for C5: a `minimal` payload on a supported
network. -/
def bodyC5 : JVal := .obj
  [("paymentPayload", .obj [("network", .str "solana-devnet"),
     ("payload", .obj [("signature", .str "S"), ("transaction", .str "T")])]),
   ("paymentRequirements", .obj [])]

/-- C5: a settlement whose broadcast succeeded (the trace contains the
broadcast of the decoded transaction, and `sendRaw` returned signature
`SIG`) but whose confirmation timed out produces a 400 response whose
`transaction` field is `null` and whose `errorReason` only carries the
timeout text — the broadcast signature is discarded rather than surfaced,
contradicting the claim. -/
theorem settle_timeout_discards_signature :
    wC5to.sendRaw ⟨some "U"⟩ = .ok "SIG" ∧
    (settleHandler wC5to bodyC5).2 = [.sendE ⟨some "U"⟩, .statusE 0] ∧
    (settleHandler wC5to bodyC5).1 = .ok
      { status := 400, success := false,
        errorReason :=
          some "Settlement failed: Transaction not confirmed within timeout. Status: processed",
        transaction := .null, network := .str "solana-devnet", payer := .null,
        confirmationStatus := none, slot := none, blockTime := none, fees := none,
        gasSponsoredByFacilitator := none, userPaidGas := none } :=
  ⟨rfl, rfl, rfl⟩

/-- C9: a `/settle` request whose body lacks `paymentPayload` makes the
handler fault: the `TypeError` raised by `paymentPayload.network` in the
try block is caught, but the catch block performs the same access while
building the 400 body, and that second exception escapes the handler
unhandled, for every world. -/
theorem settle_missing_payload_unhandled_fault (w : World) :
    (settleHandler w (.obj [])).1 =
      .error "Cannot read properties of undefined (reading network)" := rfl

/-- C6: on a `minimal` or `full` payload whose embedded transaction
decodes, `/verify` simulates it and (a) rejects on any truthy simulation
error, (b) rejects as already executed when the replay lookup finds the
claimed signature confirmed on the ledger, and (c) accepts exactly on
absence of the signature, which is the accepting condition of the replay
check. -/
theorem mf_verify_simulates_and_replay_checks (w : World) (body : JVal) (td : TxData)
    (tx : Tx) (s : String)
    (hpr : truthy (jget body "paymentRequirements") = true)
    (hnet : jget (jget body "paymentPayload") "network" = .str s)
    (hsol : strStarts s "solana-" = true)
    (hsup : supportedNetwork s = true)
    (hext : extractTransactionData (jget body "paymentPayload") = .ok td)
    (hfmt : td.fmt = "minimal" ∨ td.fmt = "full")
    (hdec : w.decodeTx td.txv = .ok tx) :
    (∀ e, w.simulate tx = .ok e → truthy e = true →
      verifyHandler w body =
        (vReject ("Transaction simulation failed: " ++ jsonStr e), [.simE tx])) ∧
    (∀ e info, w.simulate tx = .ok e → truthy e = false →
      w.getTx td.sigv = .ok (some info) →
      verifyHandler w body =
        (vReject "Transaction already executed on blockchain", [.simE tx, .getTxE td.sigv])) ∧
    (∀ e, w.simulate tx = .ok e → truthy e = false → w.getTx td.sigv = .ok none →
      verifyHandler w body =
        (vAccept w (jget body "paymentPayload") td, [.simE tx, .getTxE td.sigv]) ∧
      (vAccept w (jget body "paymentPayload") td).isValid = true) := by
  have htp : truthy (jget body "paymentPayload") = true :=
    truthy_of_truthy_jget (extract_ok_truthy hext)
  have hs : (s != "") = true := supported_ne_empty hsup
  have hnv : truthy (JVal.str s) = true := by simp [truthy, hs]
  have htxv : truthy td.txv = true := extract_mf_txv hext hfmt
  refine ⟨?_, ?_, ?_⟩
  · intro e hsim hte
    cases td <;> simp [TxData.fmt] at hfmt <;>
      simp_all [verifyHandler, verifyCore, verifyBranch, mfVerify, TxData.txv, TxData.sigv]
  · intro e info hsim hte hget
    cases td <;> simp [TxData.fmt] at hfmt <;>
      simp_all [verifyHandler, verifyCore, verifyBranch, mfVerify, TxData.txv, TxData.sigv]
  · intro e hsim hte hget
    refine ⟨?_, by simp [vAccept]⟩
    cases td <;> simp [TxData.fmt] at hfmt <;>
      simp_all [verifyHandler, verifyCore, verifyBranch, mfVerify, TxData.txv, TxData.sigv]

/-- Concrete world for the C6 witness: simulation succeeds with a `null`
error value and the replay lookup reports the signature absent. -/
def wC6 : World :=
  { facPub := "FAC"
  , decodeTx := fun _ => .ok ⟨some "U"⟩
  , serializeTx := fun _ => .ok ()
  , simulate := fun _ => .ok .null
  , getTx := fun _ => .ok none
  , sendRaw := fun _ => .ok "SIG"
  , elapsed := fun i => i
  , poll := fun _ => .ok none
  , latestBlockhash := .ok "BH"
  , parsePk := fun _ => .ok "PK"
  , getAta := fun _ _ => .ok "ATA"
  , toBigInt := fun _ => .ok 0
  , sent := [] }

/-- Concrete `/verify` body for the C6 witness: a `minimal` payload. -/
def bodyC6 : JVal := .obj
  [("paymentPayload", .obj [("network", .str "solana-devnet"),
     ("payload", .obj [("signature", .str "S"), ("transaction", .str "T")])]),
   ("paymentRequirements", .obj [])]

/-- Witness for `mf_verify_simulates_and_replay_checks`: the accepting arm
at the concrete minimal payload. -/
theorem mf_verify_simulates_and_replay_checks_witness :
    verifyHandler wC6 bodyC6 =
      (vAccept wC6 (jget bodyC6 "paymentPayload") (.minimal (.str "S") (.str "T")),
        [.simE ⟨some "U"⟩, .getTxE (TxData.minimal (.str "S") (.str "T")).sigv]) ∧
    (vAccept wC6 (jget bodyC6 "paymentPayload") (.minimal (.str "S") (.str "T"))).isValid =
      true :=
  (mf_verify_simulates_and_replay_checks wC6 bodyC6 (.minimal (.str "S") (.str "T"))
    ⟨some "U"⟩ "solana-devnet" (by decide) rfl (by decide) (by decide) rfl
    (Or.inl rfl) rfl).2.2 .null rfl rfl rfl

/-- C10: on a `minimal` or `full` payload whose simulation succeeds, a
replay-check lookup that itself throws is silently swallowed: `/verify`
accepts exactly as it does when the signature is absent from the ledger,
and never rejects for a failed lookup. -/
theorem mf_verify_replay_lookup_error_swallowed (w : World) (body : JVal) (td : TxData)
    (tx : Tx) (s : String) (e0 : JVal) (msg : String)
    (hpr : truthy (jget body "paymentRequirements") = true)
    (hnet : jget (jget body "paymentPayload") "network" = .str s)
    (hsol : strStarts s "solana-" = true)
    (hsup : supportedNetwork s = true)
    (hext : extractTransactionData (jget body "paymentPayload") = .ok td)
    (hfmt : td.fmt = "minimal" ∨ td.fmt = "full")
    (hdec : w.decodeTx td.txv = .ok tx)
    (hsim : w.simulate tx = .ok e0)
    (hte : truthy e0 = false)
    (hget : w.getTx td.sigv = .error msg) :
    verifyHandler w body =
      (vAccept w (jget body "paymentPayload") td, [.simE tx, .getTxE td.sigv]) ∧
    (vAccept w (jget body "paymentPayload") td).isValid = true := by
  have htp : truthy (jget body "paymentPayload") = true :=
    truthy_of_truthy_jget (extract_ok_truthy hext)
  have hs : (s != "") = true := supported_ne_empty hsup
  have hnv : truthy (JVal.str s) = true := by simp [truthy, hs]
  have htxv : truthy td.txv = true := extract_mf_txv hext hfmt
  refine ⟨?_, by simp [vAccept]⟩
  cases td <;> simp [TxData.fmt] at hfmt <;>
    simp_all [verifyHandler, verifyCore, verifyBranch, mfVerify, TxData.txv, TxData.sigv]

/-- Concrete world for the C10 witness: the replay lookup throws. -/
def wC10 : World :=
  { wC6 with getTx := fun _ => .error "RPC node unreachable" }

/-- Witness for `mf_verify_replay_lookup_error_swallowed` at a concrete
minimal payload whose replay lookup throws. -/
theorem mf_verify_replay_lookup_error_swallowed_witness :
    verifyHandler wC10 bodyC6 =
      (vAccept wC10 (jget bodyC6 "paymentPayload") (.minimal (.str "S") (.str "T")),
        [.simE ⟨some "U"⟩, .getTxE (TxData.minimal (.str "S") (.str "T")).sigv]) ∧
    (vAccept wC10 (jget bodyC6 "paymentPayload") (.minimal (.str "S") (.str "T"))).isValid =
      true :=
  mf_verify_replay_lookup_error_swallowed wC10 bodyC6 (.minimal (.str "S") (.str "T"))
    ⟨some "U"⟩ "solana-devnet" .null "RPC node unreachable" (by decide) rfl (by decide)
    (by decide) rfl (Or.inl rfl) rfl rfl rfl rfl

/-- A value with a truthy field is literally an object. -/
lemma obj_of_truthy_jget {pp : JVal} {k : String} (h : truthy (jget pp k) = true) :
    ∃ fs, pp = .obj fs := by
  cases pp with
  | obj fs => exact ⟨fs, rfl⟩
  | null => simp [jget, truthy] at h
  | undefined => simp [jget, truthy] at h
  | bool b => simp [jget, truthy] at h
  | num n => simp [jget, truthy] at h
  | str s => simp [jget, truthy] at h

/-- C7: settling an `authorization_only` payload performs no broadcast in
any outcome; when the claimed signature is absent from the ledger the
attempt fails with the not-found reason, and when it is found without an
on-chain execution error the response reports it confirmed with slot,
block time and fee taken from the fetched transaction. -/
theorem settle_authorization_only_refetches (w : World) (body sigv pv rv av mv : JVal)
    (s : String)
    (hnet : jget (jget body "paymentPayload") "network" = .str s)
    (hsup : supportedNetwork s = true)
    (hext : extractTransactionData (jget body "paymentPayload") =
      .ok (.authOnly sigv pv rv av mv)) :
    (settleHandler w body).2.all (fun e => !isSendEff e) = true ∧
    (w.getTx sigv = .ok none →
      (settleHandler w body).1 = .ok
        { status := 400, success := false,
          errorReason := some ("Settlement failed: Failed to verify existing transaction: " ++
            "Transaction not found on blockchain"),
          transaction := .null, network := .str s, payer := .null, confirmationStatus := none,
          slot := none, blockTime := none, fees := none, gasSponsoredByFacilitator := none,
          userPaidGas := none }) ∧
    (∀ t, w.getTx sigv = .ok (some t) → truthy (metaErr t) = false →
      ∃ resp, (settleHandler w body).1 = .ok resp ∧ resp.status = 200 ∧
        resp.success = true ∧ resp.transaction = sigv ∧
        resp.confirmationStatus = some "confirmed" ∧ resp.slot = some t.slot ∧
        resp.blockTime = t.blockTime ∧ resp.fees = t.meta.map (fun m => m.fee)) := by
  obtain ⟨fs, hobj⟩ := obj_of_truthy_jget (extract_ok_truthy hext)
  rw [hobj] at hnet hext
  refine ⟨?_, ?_, ?_⟩
  · rcases hgt : w.getTx sigv with e | ot
    · simp [settleHandler, settleCore, settleBranch, jgetE, jnetOk, hobj, hnet, hsup, hext,
        hgt, isSendEff]
    · cases ot with
      | none =>
        simp [settleHandler, settleCore, settleBranch, jgetE, jnetOk, hobj, hnet, hsup, hext,
          hgt, isSendEff]
      | some t =>
        by_cases hme : truthy (metaErr t) = true <;>
          simp [settleHandler, settleCore, settleBranch, settleSuccess, jgetE, jnetOk, hobj,
            hnet, hsup, hext, hgt, hme, isSendEff]
  · intro hgt
    simp [settleHandler, settleCore, settleBranch, jgetE, jnetOk, hobj, hnet, hsup, hext, hgt]
  · intro t hgt hme
    have h1 : (settleHandler w body).1 = .ok (settleSuccess w (.obj fs) (.str s)
        (.authOnly sigv pv rv av mv)
        ⟨sigv, true, "confirmed", some t.slot, t.blockTime, t.meta.map (fun m => m.fee)⟩) := by
      simp [settleHandler, settleCore, settleBranch, settleSuccess, jgetE, jnetOk, hobj, hnet,
        hsup, hext, hgt, hme]
    exact ⟨_, h1, rfl, rfl, rfl, rfl, rfl, rfl, rfl⟩

/-- Concrete world for the C7 witness: the ledger holds the fetched
transaction at slot 5, block time 6, fee 7, with no execution error. -/
def wC7 : World :=
  { wC6 with getTx := fun _ => .ok (some ⟨5, some 6, some ⟨.null, 7⟩⟩) }

/-- Concrete `/settle` body for the C7 witness: an `authorization_only`
payload. -/
def bodyC7 : JVal := .obj
  [("paymentPayload", .obj [("network", .str "solana-devnet"),
     ("payload", .obj [("signature", .str "S"),
        ("authorization", .obj [("from", .str "P"), ("to", .str "Q"), ("value", .num 9),
           ("nonce", .str "N")])])]),
   ("paymentRequirements", .obj [])]

/-- Witness for `settle_authorization_only_refetches` at the concrete
authorization-only payload found on the ledger. -/
theorem settle_authorization_only_refetches_witness :
    (settleHandler wC7 bodyC7).2.all (fun e => !isSendEff e) = true ∧
    ∃ resp, (settleHandler wC7 bodyC7).1 = .ok resp ∧ resp.status = 200 ∧
      resp.success = true ∧ resp.transaction = .str "S" ∧
      resp.confirmationStatus = some "confirmed" ∧
      resp.slot = some (5 : Int) ∧ resp.blockTime = some (6 : Int) ∧
      resp.fees = (some ⟨JVal.null, 7⟩ : Option TxMeta).map (fun m => m.fee) :=
  ⟨(settle_authorization_only_refetches wC7 bodyC7 (.str "S") (.str "P") (.str "Q") (.num 9)
      (.str "N") "solana-devnet" rfl (by decide) rfl).1,
   (settle_authorization_only_refetches wC7 bodyC7 (.str "S") (.str "P") (.str "Q") (.num 9)
      (.str "N") "solana-devnet" rfl (by decide) rfl).2.2 ⟨5, some 6, some ⟨.null, 7⟩⟩ rfl
      (by decide)⟩

/-- C8: a sponsored-transaction build whose library calls succeed returns
a transaction holding exactly one token-transfer instruction that moves
`maxAmountRequired` units from the payer's token account to the
recipient's with the payer (not the facilitator) as transfer authority,
whose fee payer is the facilitator's public key, whose signature slots are
the facilitator's (signed) followed by the payer's (present but unsigned),
and whose returned encoding used `requireAllSignatures: false` — encoding
the same transaction with all signatures required fails. -/
theorem create_sponsored_transaction_shape (w : World) (body upk pr : JVal)
    (s bh assetPk userPk payToPk uATA rATA : String) (amt : Int)
    (hu : jget body "userPublicKey" = upk)
    (hp : jget body "paymentRequirements" = pr)
    (htu : truthy upk = true)
    (htp : truthy pr = true)
    (hnet : jget pr "network" = .str s)
    (hsup : supportedNetwork s = true)
    (hbh : w.latestBlockhash = .ok bh)
    (hasset : w.parsePk (jget pr "asset") = .ok assetPk)
    (huser : w.parsePk upk = .ok userPk)
    (hata1 : w.getAta assetPk userPk = .ok uATA)
    (hpay : w.parsePk (jget pr "payTo") = .ok payToPk)
    (hata2 : w.getAta assetPk payToPk = .ok rATA)
    (hamt : w.toBigInt (jget pr "maxAmountRequired") = .ok amt)
    (hne : userPk ≠ w.facPub) :
    createSponsoredHandler w body =
      ({ status := 200, success := true,
         transaction := some ⟨[createTransferInstruction uATA rATA userPk amt], some bh,
           some w.facPub, [(w.facPub, true), (userPk, false)]⟩,
         facilitatorPublicKey := some w.facPub,
         message := some ("Transaction created with facilitator as fee payer. " ++
           "User needs to sign for token transfer authority."),
         blockhash := some bh, feePaidBy := some "facilitator", error := none },
       [.blockhashE]) ∧
    serializeB ⟨[createTransferInstruction uATA rATA userPk amt], some bh, some w.facPub,
      [(w.facPub, true), (userPk, false)]⟩ true = .error "Signature verification failed" := by
  constructor
  · simp [createSponsoredHandler, createFacilitatorPaidTransaction, compileAndSign,
      compiledSigners, serializeB, createTransferInstruction, txAccountKeys, dedupFirst,
      jnetOk, hu, hp, htu, htp, hnet, hsup, hbh, hasset, huser, hata1, hpay, hata2, hamt,
      hne, Ne.symm hne]
  · simp [serializeB, compiledSigners, createTransferInstruction, txAccountKeys, dedupFirst,
      hne, Ne.symm hne]

/-- Concrete world for the C8 witness. -/
def wC8 : World :=
  { wC6 with parsePk := fun v => match v with | .str s2 => .ok s2 | _ => .error "bad pk",
             getAta := fun a b => .ok (a ++ "-" ++ b),
             toBigInt := fun v => match v with | .num n => .ok n | _ => .error "bad amount" }

/-- Concrete build request for the C8 witness. -/
def bodyC8 : JVal := .obj
  [("userPublicKey", .str "U"),
   ("paymentRequirements", .obj [("network", .str "solana-devnet"), ("asset", .str "M"),
      ("payTo", .str "R"), ("maxAmountRequired", .num 42)])]

/-- Witness for `create_sponsored_transaction_shape` at the concrete build
request. -/
theorem create_sponsored_transaction_shape_witness :
    createSponsoredHandler wC8 bodyC8 =
      ({ status := 200, success := true,
         transaction := some ⟨[createTransferInstruction "M-U" "M-R" "U" 42], some "BH",
           some "FAC", [("FAC", true), ("U", false)]⟩,
         facilitatorPublicKey := some "FAC",
         message := some ("Transaction created with facilitator as fee payer. " ++
           "User needs to sign for token transfer authority."),
         blockhash := some "BH", feePaidBy := some "facilitator", error := none },
       [.blockhashE]) ∧
    serializeB ⟨[createTransferInstruction "M-U" "M-R" "U" 42], some "BH", some "FAC",
      [("FAC", true), ("U", false)]⟩ true = .error "Signature verification failed" :=
  create_sponsored_transaction_shape wC8 bodyC8 (.str "U")
    (.obj [("network", .str "solana-devnet"), ("asset", .str "M"), ("payTo", .str "R"),
       ("maxAmountRequired", .num 42)])
    "solana-devnet" "BH" "M" "U" "R" "M-U" "M-R" 42
    rfl rfl (by decide) (by decide) rfl (by decide) rfl rfl rfl rfl rfl rfl rfl (by decide)

end X402
